import Mathlib

/-!
Verification of `src/app/src/c/converse/segments/segment_layer.c`: the
polymorphic segment layer that wraps one conversation entry in a child view
selected by a tagged-union dispatch.

The embedding translates the file's data model and its four operations
(`segment_layer_create`, `segment_layer_update`, `segment_layer_destroy`,
`segment_layer_get_entry`) plus the classification helper
(`prv_get_segment_type`).  External collaborators (the concrete widget
constructors/updaters and the layer toolkit) are out of scope for the source
file and are modelled abstractly: a `WidgetEnv` supplies, per variant, the
frame a concrete child view has after its own create and update calls, and
resource allocation/release is tracked with an explicit ledger of
`Resource` values in call order.  Geometry is modelled with unbounded
integers, since the rectangle toolkit is an external collaborator consumed
only through its interface.

`ConversationEntry` values are reached through a `store` from entry
references, mirroring the C pointer indirection, so that mutation of the
backing entry between calls can be expressed by calling later operations
with a different store.
-/

/-- Logical entry types of the conversation data model
(`conversation_entry_get_type`).  `EntryTypeUnknown code` stands for any raw
enum value outside the declared set, which the C switch can still receive. -/
inductive EntryType where
  | EntryTypeDeleted
  | EntryTypePrompt
  | EntryTypeResponse
  | EntryTypeThought
  | EntryTypeError
  | EntryTypeAction
  | EntryTypeWidget
  | EntryTypeUnknown (code : Nat)
deriving DecidableEq

/-- Widget sub-types of the conversation data model
(`conversation_entry_get_widget(entry)->type`).
`ConversationWidgetTypeUnknown code` stands for any raw value outside the
declared set. -/
inductive ConversationWidgetType where
  | ConversationWidgetTypeWeatherSingleDay
  | ConversationWidgetTypeWeatherCurrent
  | ConversationWidgetTypeWeatherMultiDay
  | ConversationWidgetTypeTimer
  | ConversationWidgetTypeNumber
  | ConversationWidgetTypeMap
  | ConversationWidgetTypeUnknown (code : Nat)
deriving DecidableEq

/-- The widget descriptor returned by `conversation_entry_get_widget`. -/
structure WidgetDescriptor where
  type : ConversationWidgetType
deriving DecidableEq

/-- A conversation entry, as observed through the two accessors the segment
layer uses. -/
structure ConversationEntry where
  entryType : EntryType
  widget : WidgetDescriptor
deriving DecidableEq

/-- An entry reference (C pointer); dereferenced through an `EntryStore`. -/
abbrev ConversationEntryRef := Nat

/-- The heap of conversation entries: maps a reference to its current value. -/
abbrev EntryStore := ConversationEntryRef → ConversationEntry

/-- Accessor `conversation_entry_get_type`. -/
def conversation_entry_get_type (e : ConversationEntry) : EntryType :=
  e.entryType

/-- Accessor `conversation_entry_get_widget`. -/
def conversation_entry_get_widget (e : ConversationEntry) : WidgetDescriptor :=
  e.widget

/-- The `SegmentType` enum of the source.  `SegmentTypeMapWidget` is
conditionally compiled behind `ENABLE_FEATURE_MAPS`; here it is always a
constructor, and the feature switch is the `mapsEnabled` parameter of the
functions that dispatch on it. -/
inductive SegmentType where
  | SegmentTypeNone
  | SegmentTypeMessage
  | SegmentTypeInfo
  | SegmentTypeWeatherSingleDayWidget
  | SegmentTypeWeatherCurrentWidget
  | SegmentTypeWeatherMultiDayWidget
  | SegmentTypeTimerWidget
  | SegmentTypeNumberWidget
  | SegmentTypeMapWidget
deriving DecidableEq

/-- Outcome of running `prv_get_segment_type`, with the two observable side
conditions the claims talk about: whether the warning-level `BOBBY_LOG` at
the bottom of the function was reached, and whether
`conversation_entry_get_widget` was called. -/
structure ClassifyOutcome where
  segType : SegmentType
  warned : Bool
  widgetRead : Bool
deriving DecidableEq

/-- `prv_get_segment_type`, instrumented with the warning flag and the
widget-accessor flag.  The structure mirrors the two nested switches of the
source: every recognized case returns directly; a widget sub-type with no
case (unknown raw values, and `ConversationWidgetTypeMap` when
`ENABLE_FEATURE_MAPS` is off) breaks out of both switches, and an entry type
with no case falls through, so both reach the trailing warning log and
return `SegmentTypeNone`. -/
def prv_get_segment_type_full (mapsEnabled : Bool) (e : ConversationEntry) :
    ClassifyOutcome :=
  match conversation_entry_get_type e with
  | .EntryTypeDeleted => ⟨.SegmentTypeNone, false, false⟩
  | .EntryTypePrompt => ⟨.SegmentTypeMessage, false, false⟩
  | .EntryTypeResponse => ⟨.SegmentTypeMessage, false, false⟩
  | .EntryTypeThought => ⟨.SegmentTypeInfo, false, false⟩
  | .EntryTypeError => ⟨.SegmentTypeInfo, false, false⟩
  | .EntryTypeAction => ⟨.SegmentTypeInfo, false, false⟩
  | .EntryTypeWidget =>
    match (conversation_entry_get_widget e).type with
    | .ConversationWidgetTypeWeatherSingleDay =>
        ⟨.SegmentTypeWeatherSingleDayWidget, false, true⟩
    | .ConversationWidgetTypeWeatherCurrent =>
        ⟨.SegmentTypeWeatherCurrentWidget, false, true⟩
    | .ConversationWidgetTypeWeatherMultiDay =>
        ⟨.SegmentTypeWeatherMultiDayWidget, false, true⟩
    | .ConversationWidgetTypeTimer => ⟨.SegmentTypeTimerWidget, false, true⟩
    | .ConversationWidgetTypeNumber => ⟨.SegmentTypeNumberWidget, false, true⟩
    | .ConversationWidgetTypeMap =>
        if mapsEnabled then ⟨.SegmentTypeMapWidget, false, true⟩
        else ⟨.SegmentTypeNone, true, true⟩
    | .ConversationWidgetTypeUnknown _ => ⟨.SegmentTypeNone, true, true⟩
  | .EntryTypeUnknown _ => ⟨.SegmentTypeNone, true, false⟩

/-- `prv_get_segment_type`: the segment type it returns. -/
def prv_get_segment_type (mapsEnabled : Bool) (e : ConversationEntry) :
    SegmentType :=
  (prv_get_segment_type_full mapsEnabled e).segType

/-- The closed set of recognized classifications, written from the spec's
table: the seven declared entry types, with widget entries recognized
exactly when their sub-type is one of the five declared ones, or the map
sub-type with the maps feature enabled.  Used to compare the code's warning
behaviour against the spec's single error condition. -/
def specRecognizedEntry (mapsEnabled : Bool) (e : ConversationEntry) : Bool :=
  match e.entryType with
  | .EntryTypeDeleted => true
  | .EntryTypePrompt => true
  | .EntryTypeResponse => true
  | .EntryTypeThought => true
  | .EntryTypeError => true
  | .EntryTypeAction => true
  | .EntryTypeWidget =>
    match e.widget.type with
    | .ConversationWidgetTypeWeatherSingleDay => true
    | .ConversationWidgetTypeWeatherCurrent => true
    | .ConversationWidgetTypeWeatherMultiDay => true
    | .ConversationWidgetTypeTimer => true
    | .ConversationWidgetTypeNumber => true
    | .ConversationWidgetTypeMap => mapsEnabled
    | .ConversationWidgetTypeUnknown _ => false
  | .EntryTypeUnknown _ => false

/-- C1: `prv_get_segment_type` maps every recognized entry type exactly as
the spec's table states: Deleted to None; Prompt and Response to Message;
Thought, Error and Action to Info; each widget sub-type to its own widget
variant, the map sub-type when the maps feature is enabled; and the six
widget variants are pairwise distinct, so the widget mapping is one-to-one. -/
theorem classify_table_c1 (maps : Bool) (w : WidgetDescriptor) :
    prv_get_segment_type maps ⟨.EntryTypeDeleted, w⟩ = .SegmentTypeNone ∧
    prv_get_segment_type maps ⟨.EntryTypePrompt, w⟩ = .SegmentTypeMessage ∧
    prv_get_segment_type maps ⟨.EntryTypeResponse, w⟩ = .SegmentTypeMessage ∧
    prv_get_segment_type maps ⟨.EntryTypeThought, w⟩ = .SegmentTypeInfo ∧
    prv_get_segment_type maps ⟨.EntryTypeError, w⟩ = .SegmentTypeInfo ∧
    prv_get_segment_type maps ⟨.EntryTypeAction, w⟩ = .SegmentTypeInfo ∧
    prv_get_segment_type maps
      ⟨.EntryTypeWidget, ⟨.ConversationWidgetTypeWeatherSingleDay⟩⟩ =
      .SegmentTypeWeatherSingleDayWidget ∧
    prv_get_segment_type maps
      ⟨.EntryTypeWidget, ⟨.ConversationWidgetTypeWeatherCurrent⟩⟩ =
      .SegmentTypeWeatherCurrentWidget ∧
    prv_get_segment_type maps
      ⟨.EntryTypeWidget, ⟨.ConversationWidgetTypeWeatherMultiDay⟩⟩ =
      .SegmentTypeWeatherMultiDayWidget ∧
    prv_get_segment_type maps
      ⟨.EntryTypeWidget, ⟨.ConversationWidgetTypeTimer⟩⟩ =
      .SegmentTypeTimerWidget ∧
    prv_get_segment_type maps
      ⟨.EntryTypeWidget, ⟨.ConversationWidgetTypeNumber⟩⟩ =
      .SegmentTypeNumberWidget ∧
    prv_get_segment_type true
      ⟨.EntryTypeWidget, ⟨.ConversationWidgetTypeMap⟩⟩ =
      .SegmentTypeMapWidget ∧
    ([SegmentType.SegmentTypeWeatherSingleDayWidget,
      .SegmentTypeWeatherCurrentWidget, .SegmentTypeWeatherMultiDayWidget,
      .SegmentTypeTimerWidget, .SegmentTypeNumberWidget,
      .SegmentTypeMapWidget] : List SegmentType).Nodup :=
  ⟨rfl, rfl, rfl, rfl, rfl, rfl, rfl, rfl, rfl, rfl, rfl, rfl, by decide⟩

/-- C2: classification is total and fail-soft.  The warning log is emitted
exactly on entries outside the recognized closed set (the component's only
error condition), and whenever it is emitted the result is the None variant;
the function is total by construction, so no input fails. -/
theorem classify_fail_soft_c2 (maps : Bool) (e : ConversationEntry) :
    (prv_get_segment_type_full maps e).warned = !(specRecognizedEntry maps e) ∧
    ((prv_get_segment_type_full maps e).segType = .SegmentTypeNone ∨
      (prv_get_segment_type_full maps e).warned = false) := by
  rcases e with ⟨t, ⟨wt⟩⟩
  cases t <;> cases wt <;> cases maps <;>
    simp [prv_get_segment_type_full, specRecognizedEntry,
      conversation_entry_get_type, conversation_entry_get_widget]

/-- C9: the widget accessor's precondition is respected.
`conversation_entry_get_widget` is called during classification exactly when
the entry's type is `EntryTypeWidget`; for every other entry type the widget
descriptor is never read. -/
theorem widget_access_guarded_c9 (maps : Bool) (e : ConversationEntry) :
    (prv_get_segment_type_full maps e).widgetRead = true ↔
      conversation_entry_get_type e = .EntryTypeWidget := by
  rcases e with ⟨t, ⟨wt⟩⟩
  cases t <;> cases wt <;> cases maps <;>
    simp [prv_get_segment_type_full, conversation_entry_get_type,
      conversation_entry_get_widget]

/-- Toolkit point (`GPoint`).  Geometry is an external collaborator; fields
are modelled as unbounded integers. -/
structure GPoint where
  x : Int
  y : Int
deriving DecidableEq

/-- Toolkit size (`GSize`). -/
structure GSize where
  w : Int
  h : Int
deriving DecidableEq

/-- Toolkit rectangle (`GRect`). -/
structure GRect where
  origin : GPoint
  size : GSize
deriving DecidableEq

/-- The fixed height of the assistant-name label (`NAME_HEIGHT`). -/
def NAME_HEIGHT : Int := 20

/-- A concrete child view, observed through its layer frame.  `initFrame`
records the frame that was passed to the concrete `*_create` call;
`frame` is the view's current layer frame (its natural size, as read back
with `layer_get_frame`). -/
structure ChildView where
  initFrame : GRect
  frame : GRect
deriving DecidableEq

/-- The assistant-name text layer, observed through its frame and text. -/
structure LabelView where
  frame : GRect
  text : String
deriving DecidableEq

/-- Behaviour of the concrete widget/view collaborators, per variant: the
frame a child view of the given variant has right after its `*_create` call
with the given frame argument, and right after its `*_update` call given its
current frame.  Both may read the backing entry through the store. -/
structure WidgetEnv where
  createdFrame : SegmentType → GRect → EntryStore → ConversationEntryRef → GRect
  updatedFrame : SegmentType → GRect → EntryStore → ConversationEntryRef → GRect

/-- `SegmentLayerData` plus the segment's own layer frame. -/
structure Segment where
  entry : ConversationEntryRef
  assistant_label_layer : Option LabelView
  type : SegmentType
  child : Option ChildView
  frame : GRect
deriving DecidableEq

/-- The resources the segment layer allocates and releases: its own layer
(`blayer_create_with_data`), the optional assistant label text layer, and
exactly one concrete child view identified by its variant. -/
inductive Resource where
  | segLayer
  | labelLayer
  | childView (t : SegmentType)
deriving DecidableEq, BEq

/-- The child-construction switch of `segment_layer_create`: dispatches on
the segment type to the matching concrete `*_create(child_frame, entry)`
call; `SegmentTypeNone` constructs nothing. -/
def prv_create_child (env : WidgetEnv) (t : SegmentType) (child_frame : GRect)
    (store : EntryStore) (entry : ConversationEntryRef) : Option ChildView :=
  match t with
  | .SegmentTypeNone => none
  | .SegmentTypeMessage =>
      some ⟨child_frame, env.createdFrame .SegmentTypeMessage child_frame store entry⟩
  | .SegmentTypeInfo =>
      some ⟨child_frame, env.createdFrame .SegmentTypeInfo child_frame store entry⟩
  | .SegmentTypeWeatherSingleDayWidget =>
      some ⟨child_frame,
        env.createdFrame .SegmentTypeWeatherSingleDayWidget child_frame store entry⟩
  | .SegmentTypeWeatherCurrentWidget =>
      some ⟨child_frame,
        env.createdFrame .SegmentTypeWeatherCurrentWidget child_frame store entry⟩
  | .SegmentTypeWeatherMultiDayWidget =>
      some ⟨child_frame,
        env.createdFrame .SegmentTypeWeatherMultiDayWidget child_frame store entry⟩
  | .SegmentTypeTimerWidget =>
      some ⟨child_frame, env.createdFrame .SegmentTypeTimerWidget child_frame store entry⟩
  | .SegmentTypeNumberWidget =>
      some ⟨child_frame, env.createdFrame .SegmentTypeNumberWidget child_frame store entry⟩
  | .SegmentTypeMapWidget =>
      some ⟨child_frame, env.createdFrame .SegmentTypeMapWidget child_frame store entry⟩

/-- The child view allocated by the construction switch, as a ledger entry:
none for `SegmentTypeNone`, one variant-tagged child view otherwise. -/
def prv_child_alloc : SegmentType → List Resource
  | .SegmentTypeNone => []
  | .SegmentTypeMessage => [.childView .SegmentTypeMessage]
  | .SegmentTypeInfo => [.childView .SegmentTypeInfo]
  | .SegmentTypeWeatherSingleDayWidget => [.childView .SegmentTypeWeatherSingleDayWidget]
  | .SegmentTypeWeatherCurrentWidget => [.childView .SegmentTypeWeatherCurrentWidget]
  | .SegmentTypeWeatherMultiDayWidget => [.childView .SegmentTypeWeatherMultiDayWidget]
  | .SegmentTypeTimerWidget => [.childView .SegmentTypeTimerWidget]
  | .SegmentTypeNumberWidget => [.childView .SegmentTypeNumberWidget]
  | .SegmentTypeMapWidget => [.childView .SegmentTypeMapWidget]

/-- Modelled from the spec: the size the source reads back with
`layer_get_frame(data->layer)`.  For the `SegmentTypeNone` variant no child
view was constructed; the read then depends on `blayer_create_with_data`
(declared in `util/memory/sdk.h`, not part of this file), and the spec states
that an unclassifiable entry yields no child view and a frame height of 0,
so the missing child reads back as the zero size. -/
def prv_child_size : Option ChildView → GSize
  | none => ⟨0, 0⟩
  | some c => c.frame.size

/-- `segment_layer_create(rect, entry, assistant_label)`.  Returns the
constructed segment together with the ledger of resources it allocated, in
call order: the segment's own layer first, then the optional label layer,
then the variant's child view. -/
def segment_layer_create (env : WidgetEnv) (store : EntryStore) (rect : GRect)
    (entry : ConversationEntryRef) (assistant_label : Bool) (mapsEnabled : Bool) :
    Segment × List Resource :=
  let t := prv_get_segment_type mapsEnabled (store entry)
  let assistant_label_layer : Option LabelView :=
    if assistant_label then
      some ⟨⟨⟨5, 0⟩, ⟨rect.size.w, NAME_HEIGHT⟩⟩, "Bobby"⟩
    else none
  let child_frame : GRect :=
    if assistant_label then
      ⟨⟨0, NAME_HEIGHT⟩, ⟨rect.size.w, rect.size.h - NAME_HEIGHT⟩⟩
    else ⟨⟨0, 0⟩, ⟨rect.size.w, rect.size.h⟩⟩
  let child := prv_create_child env t child_frame store entry
  let child_size := prv_child_size child
  let final_size : GRect :=
    ⟨⟨rect.origin.x, rect.origin.y⟩,
      ⟨child_size.w,
        child_size.h + (if assistant_label_layer.isSome then NAME_HEIGHT else 0)⟩⟩
  (⟨entry, assistant_label_layer, t, child, final_size⟩,
    [Resource.segLayer]
      ++ (if assistant_label then [Resource.labelLayer] else [])
      ++ prv_child_alloc t)

/-- The update switch of `segment_layer_update`: dispatches on the segment
type to the matching concrete `*_update` call, which may change the child
view's frame; no-op for `SegmentTypeNone`. -/
def prv_update_child (env : WidgetEnv) (t : SegmentType) (store : EntryStore)
    (entry : ConversationEntryRef) (child : Option ChildView) : Option ChildView :=
  match t with
  | .SegmentTypeNone => child
  | .SegmentTypeMessage =>
      child.map fun c => ⟨c.initFrame, env.updatedFrame .SegmentTypeMessage c.frame store entry⟩
  | .SegmentTypeInfo =>
      child.map fun c => ⟨c.initFrame, env.updatedFrame .SegmentTypeInfo c.frame store entry⟩
  | .SegmentTypeWeatherSingleDayWidget =>
      child.map fun c =>
        ⟨c.initFrame, env.updatedFrame .SegmentTypeWeatherSingleDayWidget c.frame store entry⟩
  | .SegmentTypeWeatherCurrentWidget =>
      child.map fun c =>
        ⟨c.initFrame, env.updatedFrame .SegmentTypeWeatherCurrentWidget c.frame store entry⟩
  | .SegmentTypeWeatherMultiDayWidget =>
      child.map fun c =>
        ⟨c.initFrame, env.updatedFrame .SegmentTypeWeatherMultiDayWidget c.frame store entry⟩
  | .SegmentTypeTimerWidget =>
      child.map fun c =>
        ⟨c.initFrame, env.updatedFrame .SegmentTypeTimerWidget c.frame store entry⟩
  | .SegmentTypeNumberWidget =>
      child.map fun c =>
        ⟨c.initFrame, env.updatedFrame .SegmentTypeNumberWidget c.frame store entry⟩
  | .SegmentTypeMapWidget =>
      child.map fun c =>
        ⟨c.initFrame, env.updatedFrame .SegmentTypeMapWidget c.frame store entry⟩

/-- `segment_layer_update(layer)`: dispatch the child's own update, then
recompute the segment frame from the child's current size plus the label
height when a label is present, keeping the segment's current origin. -/
def segment_layer_update (env : WidgetEnv) (store : EntryStore) (s : Segment) :
    Segment :=
  let child := prv_update_child env s.type store s.entry s.child
  let child_size := prv_child_size child
  let origin := s.frame.origin
  let final_frame : GRect :=
    ⟨origin,
      ⟨child_size.w,
        child_size.h +
          (if s.assistant_label_layer.isSome then NAME_HEIGHT else 0)⟩⟩
  { s with child := child, frame := final_frame }

/-- The destroy switch of `segment_layer_destroy`: dispatches on the segment
type to the matching concrete `*_destroy` call, releasing the one
variant-tagged child view; nothing for `SegmentTypeNone`. -/
def prv_child_destroy : SegmentType → List Resource
  | .SegmentTypeNone => []
  | .SegmentTypeMessage => [.childView .SegmentTypeMessage]
  | .SegmentTypeInfo => [.childView .SegmentTypeInfo]
  | .SegmentTypeWeatherSingleDayWidget => [.childView .SegmentTypeWeatherSingleDayWidget]
  | .SegmentTypeWeatherCurrentWidget => [.childView .SegmentTypeWeatherCurrentWidget]
  | .SegmentTypeWeatherMultiDayWidget => [.childView .SegmentTypeWeatherMultiDayWidget]
  | .SegmentTypeTimerWidget => [.childView .SegmentTypeTimerWidget]
  | .SegmentTypeNumberWidget => [.childView .SegmentTypeNumberWidget]
  | .SegmentTypeMapWidget => [.childView .SegmentTypeMapWidget]

/-- `segment_layer_destroy(layer)`: the ledger of resources it releases, in
call order: the variant's child view through the destroy switch, then the
label layer if one is present, then the segment's own layer last. -/
def segment_layer_destroy (s : Segment) : List Resource :=
  prv_child_destroy s.type
    ++ (if s.assistant_label_layer.isSome then [Resource.labelLayer] else [])
    ++ [Resource.segLayer]

/-- `segment_layer_get_entry(layer)`: returns the stored entry reference. -/
def segment_layer_get_entry (s : Segment) : ConversationEntryRef :=
  s.entry

/-- A sequence of updates, each with the collaborator environment and entry
store in effect at that call (so the backing entry may have mutated between
calls). -/
def segment_layer_update_many (steps : List (WidgetEnv × EntryStore))
    (s : Segment) : Segment :=
  steps.foldl (fun acc p => segment_layer_update p.1 p.2 acc) s

/-- The child view's natural height as the segment reads it. -/
def child_natural_height (s : Segment) : Int :=
  (prv_child_size s.child).h

/-- The frame-composition invariant of the spec: the segment frame's height
is the child's natural height plus the label height when a label is present. -/
def frame_inv (s : Segment) : Prop :=
  s.frame.size.h =
    child_natural_height s +
      (if s.assistant_label_layer.isSome then NAME_HEIGHT else 0)

/-- An identity collaborator environment for concrete evaluation: every
child view keeps exactly the frame it is given. -/
def testEnv : WidgetEnv :=
  ⟨fun _ f _ _ => f, fun _ f _ _ => f⟩

/-- A store where every reference holds a timer-widget entry. -/
def testStoreTimer : EntryStore :=
  fun _ => ⟨.EntryTypeWidget, ⟨.ConversationWidgetTypeTimer⟩⟩

/-- A store where every reference holds an entry of unrecognized type. -/
def testStoreUnknown : EntryStore :=
  fun _ => ⟨.EntryTypeUnknown 3, ⟨.ConversationWidgetTypeTimer⟩⟩

/-- A concrete construction rectangle. -/
def testRect : GRect := ⟨⟨0, 0⟩, ⟨180, 200⟩⟩

/-- A concrete message segment with a label, for evaluation. -/
def testSegment : Segment :=
  ⟨0, some ⟨⟨⟨5, 0⟩, ⟨180, NAME_HEIGHT⟩⟩, "Bobby"⟩, .SegmentTypeMessage,
    some ⟨⟨⟨0, 20⟩, ⟨180, 180⟩⟩, ⟨⟨0, 20⟩, ⟨180, 60⟩⟩⟩, ⟨⟨0, 0⟩, ⟨180, 80⟩⟩⟩

/-- The destroy switch releases exactly what the construction switch
allocated, variant by variant. -/
theorem prv_child_destroy_eq_alloc (t : SegmentType) :
    prv_child_destroy t = prv_child_alloc t := by
  cases t <;> rfl

/-- Shape of the ledgers for a given variant and label flag: the release
ledger is the allocation ledger reversed, allocations are pairwise distinct,
exactly one child view (of the variant) is released unless the variant is
`SegmentTypeNone`, the label layer is released exactly when present, and the
segment's own layer is released last. -/
theorem ledger_spec (t : SegmentType) (lbl : Bool) :
    (prv_child_destroy t ++ (if lbl then [Resource.labelLayer] else []) ++
        [Resource.segLayer]) =
      ([Resource.segLayer] ++ (if lbl then [Resource.labelLayer] else []) ++
        prv_child_alloc t).reverse ∧
    ([Resource.segLayer] ++ (if lbl then [Resource.labelLayer] else []) ++
      prv_child_alloc t).Nodup ∧
    (∀ u : SegmentType,
      (prv_child_destroy t ++ (if lbl then [Resource.labelLayer] else []) ++
          [Resource.segLayer]).count (Resource.childView u) =
        if t = .SegmentTypeNone then 0 else if u = t then 1 else 0) ∧
    (prv_child_destroy t ++ (if lbl then [Resource.labelLayer] else []) ++
        [Resource.segLayer]).count Resource.labelLayer =
      (if lbl then 1 else 0) ∧
    (prv_child_destroy t ++ (if lbl then [Resource.labelLayer] else []) ++
        [Resource.segLayer]).getLast? = some Resource.segLayer := by
  cases t <;> cases lbl <;>
    exact ⟨by decide, by decide, fun u => by cases u <;> decide, by decide,
      by decide⟩

/-- Update leaves the entry reference, the variant tag, the label layer and
the frame origin untouched. -/
theorem segment_layer_update_preserves (env : WidgetEnv) (store : EntryStore)
    (s : Segment) :
    (segment_layer_update env store s).entry = s.entry ∧
    (segment_layer_update env store s).type = s.type ∧
    (segment_layer_update env store s).assistant_label_layer =
      s.assistant_label_layer ∧
    (segment_layer_update env store s).frame.origin = s.frame.origin :=
  ⟨rfl, rfl, rfl, rfl⟩

/-- A sequence of updates leaves the entry reference, the variant tag and
the label layer untouched. -/
theorem segment_layer_update_many_preserves
    (steps : List (WidgetEnv × EntryStore)) (s : Segment) :
    (segment_layer_update_many steps s).entry = s.entry ∧
    (segment_layer_update_many steps s).type = s.type ∧
    (segment_layer_update_many steps s).assistant_label_layer =
      s.assistant_label_layer := by
  induction steps generalizing s with
  | nil => exact ⟨rfl, rfl, rfl⟩
  | cons p ps ih =>
      simpa [segment_layer_update_many] using
        ih (segment_layer_update p.1 p.2 s)

/-- C3: constructing a segment for an entry of unrecognized type yields the
None variant, constructs no child view (none is allocated), and the
resulting frame height is 0, or `NAME_HEIGHT` when the assistant label was
requested. -/
theorem create_unknown_entry_c3 (env : WidgetEnv) (store : EntryStore)
    (rect : GRect) (e : ConversationEntryRef) (lbl maps : Bool) (n : Nat)
    (h : (store e).entryType = .EntryTypeUnknown n) :
    (segment_layer_create env store rect e lbl maps).1.type =
      .SegmentTypeNone ∧
    (segment_layer_create env store rect e lbl maps).1.child = none ∧
    (segment_layer_create env store rect e lbl maps).1.frame.size.h =
      (if lbl then NAME_HEIGHT else 0) ∧
    (segment_layer_create env store rect e lbl maps).2 =
      [Resource.segLayer] ++ (if lbl then [Resource.labelLayer] else []) := by
  have ht : prv_get_segment_type maps (store e) = .SegmentTypeNone := by
    simp [prv_get_segment_type, prv_get_segment_type_full,
      conversation_entry_get_type, h]
  cases lbl <;>
    simp [segment_layer_create, ht, prv_create_child, prv_child_size,
      prv_child_alloc]

/-- Witness for C3 at a concrete unrecognized entry with a label. -/
theorem create_unknown_entry_c3_witness :
    (testStoreUnknown 0).entryType = .EntryTypeUnknown 3 ∧
    ((segment_layer_create testEnv testStoreUnknown testRect 0 true false).1.type =
        .SegmentTypeNone ∧
      (segment_layer_create testEnv testStoreUnknown testRect 0 true false).1.child =
        none ∧
      (segment_layer_create testEnv testStoreUnknown testRect 0 true
            false).1.frame.size.h =
        (if true then NAME_HEIGHT else 0) ∧
      (segment_layer_create testEnv testStoreUnknown testRect 0 true false).2 =
        [Resource.segLayer] ++
          (if true then [Resource.labelLayer] else [])) :=
  ⟨rfl, create_unknown_entry_c3 testEnv testStoreUnknown testRect 0 true false 3
    rfl⟩

/-- C4: frame composition.  After construction the frame height is the
child's natural height plus the label height when present, and the origin is
the input rectangle's origin; after every update the invariant is
re-established and the segment's current origin is preserved. -/
theorem frame_composition_c4 (env env' : WidgetEnv) (store store' : EntryStore)
    (rect : GRect) (e : ConversationEntryRef) (lbl maps : Bool) (s : Segment) :
    frame_inv (segment_layer_create env store rect e lbl maps).1 ∧
    (segment_layer_create env store rect e lbl maps).1.frame.origin =
      rect.origin ∧
    frame_inv (segment_layer_update env' store' s) ∧
    (segment_layer_update env' store' s).frame.origin = s.frame.origin := by
  refine ⟨?_, rfl, rfl, rfl⟩
  simp [frame_inv, child_natural_height, segment_layer_create]

/-- C5: destroy releases exactly what create allocated.  The release ledger
is the allocation ledger in reverse (so every allocated resource is released
exactly once and none twice, since the allocations are pairwise distinct);
exactly one child-view destructor runs, the one matching the variant chosen
at construction and none for the None variant; the label layer is released
exactly when one was created; and the segment's own layer is released
last. -/
theorem destroy_releases_created_c5 (env : WidgetEnv) (store : EntryStore)
    (rect : GRect) (e : ConversationEntryRef) (lbl maps : Bool) :
    segment_layer_destroy (segment_layer_create env store rect e lbl maps).1 =
      ((segment_layer_create env store rect e lbl maps).2).reverse ∧
    ((segment_layer_create env store rect e lbl maps).2).Nodup ∧
    (∀ u : SegmentType,
      (segment_layer_destroy
            (segment_layer_create env store rect e lbl maps).1).count
          (Resource.childView u) =
        if (segment_layer_create env store rect e lbl maps).1.type =
            .SegmentTypeNone then 0
        else if u = (segment_layer_create env store rect e lbl maps).1.type
          then 1 else 0) ∧
    (segment_layer_destroy
          (segment_layer_create env store rect e lbl maps).1).count
        Resource.labelLayer = (if lbl then 1 else 0) ∧
    (segment_layer_destroy
          (segment_layer_create env store rect e lbl maps).1).getLast? =
      some Resource.segLayer := by
  have h := ledger_spec (prv_get_segment_type maps (store e)) lbl
  cases lbl <;>
    simpa [segment_layer_create, segment_layer_destroy] using h

/-- C6: update is idempotent on the frame.  If an update leaves the child
view's frame unchanged (no change to the backing entry), a second identical
update yields the same segment frame. -/
theorem update_idempotent_c6 (env : WidgetEnv) (store : EntryStore)
    (s : Segment)
    (h : (segment_layer_update env store s).child = s.child) :
    (segment_layer_update env store (segment_layer_update env store s)).frame =
      (segment_layer_update env store s).frame := by
  simp only [segment_layer_update] at h ⊢
  simp [h]

/-- Witness for C6 at a concrete message segment whose child keeps its frame
under the identity environment. -/
theorem update_idempotent_c6_witness :
    (segment_layer_update testEnv testStoreTimer testSegment).child =
      testSegment.child ∧
    (segment_layer_update testEnv testStoreTimer
          (segment_layer_update testEnv testStoreTimer testSegment)).frame =
      (segment_layer_update testEnv testStoreTimer testSegment).frame :=
  ⟨by decide, update_idempotent_c6 testEnv testStoreTimer testSegment
    (by decide)⟩

/-- C7: segments constructed with the assistant label.  The label view is
created at the top with the fixed assistant name as its text; the concrete
child view (when one is constructed) receives a frame inset from the top of
the input rectangle by the label height; the final frame height is the
child's natural height plus the label height; and without the flag no label
view exists. -/
theorem assistant_label_c7 (env : WidgetEnv) (store : EntryStore)
    (rect : GRect) (e : ConversationEntryRef) (maps : Bool) (c : ChildView)
    (h : (segment_layer_create env store rect e true maps).1.child = some c) :
    (segment_layer_create env store rect e true maps).1.assistant_label_layer =
      some ⟨⟨⟨5, 0⟩, ⟨rect.size.w, NAME_HEIGHT⟩⟩, "Bobby"⟩ ∧
    c.initFrame =
      ⟨⟨0, NAME_HEIGHT⟩, ⟨rect.size.w, rect.size.h - NAME_HEIGHT⟩⟩ ∧
    (segment_layer_create env store rect e true maps).1.frame.size.h =
      c.frame.size.h + NAME_HEIGHT ∧
    (segment_layer_create env store rect e false
        maps).1.assistant_label_layer = none := by
  simp only [segment_layer_create] at h
  simp at h
  refine ⟨rfl, ?_, ?_, rfl⟩
  · cases ht : prv_get_segment_type maps (store e) <;> rw [ht] at h <;>
      simp [prv_create_child] at h <;> rw [← h]
  · simp [segment_layer_create, h, prv_child_size]

/-- Witness for C7 at a concrete timer-widget entry under the identity
environment. -/
theorem assistant_label_c7_witness :
    (segment_layer_create testEnv testStoreTimer testRect 0 true false).1.child =
      some ⟨⟨⟨0, NAME_HEIGHT⟩, ⟨180, 180⟩⟩, ⟨⟨0, NAME_HEIGHT⟩, ⟨180, 180⟩⟩⟩ ∧
    ((segment_layer_create testEnv testStoreTimer testRect 0 true
          false).1.assistant_label_layer =
        some ⟨⟨⟨5, 0⟩, ⟨testRect.size.w, NAME_HEIGHT⟩⟩, "Bobby"⟩ ∧
      (⟨⟨⟨0, NAME_HEIGHT⟩, ⟨180, 180⟩⟩, ⟨⟨0, NAME_HEIGHT⟩, ⟨180, 180⟩⟩⟩ :
          ChildView).initFrame =
        ⟨⟨0, NAME_HEIGHT⟩,
          ⟨testRect.size.w, testRect.size.h - NAME_HEIGHT⟩⟩ ∧
      (segment_layer_create testEnv testStoreTimer testRect 0 true
            false).1.frame.size.h =
        (⟨⟨⟨0, NAME_HEIGHT⟩, ⟨180, 180⟩⟩, ⟨⟨0, NAME_HEIGHT⟩, ⟨180, 180⟩⟩⟩ :
            ChildView).frame.size.h + NAME_HEIGHT ∧
      (segment_layer_create testEnv testStoreTimer testRect 0 false
          false).1.assistant_label_layer = none) :=
  ⟨by decide, assistant_label_c7 testEnv testStoreTimer testRect 0 false
    ⟨⟨⟨0, NAME_HEIGHT⟩, ⟨180, 180⟩⟩, ⟨⟨0, NAME_HEIGHT⟩, ⟨180, 180⟩⟩⟩
    (by decide)⟩

/-- C8: the variant tag is computed exactly once at construction, as
`prv_get_segment_type` of the entry as it stood at creation time, and no
later operation changes it: after any sequence of updates — each possibly
running under a different collaborator environment and against a mutated
entry store — the tag still equals the construction-time classification, and
a single update never changes the tag of any segment.
(`segment_layer_get_entry` and `segment_layer_destroy` read the segment
without producing a modified one, so they cannot change the tag either.) -/
theorem variant_tag_immutable_c8 (env : WidgetEnv) (store : EntryStore)
    (rect : GRect) (e : ConversationEntryRef) (lbl maps : Bool)
    (steps : List (WidgetEnv × EntryStore)) :
    (segment_layer_create env store rect e lbl maps).1.type =
      prv_get_segment_type maps (store e) ∧
    (segment_layer_update_many steps
        (segment_layer_create env store rect e lbl maps).1).type =
      prv_get_segment_type maps (store e) ∧
    ∀ (env2 : WidgetEnv) (store2 : EntryStore) (s : Segment),
      (segment_layer_update env2 store2 s).type = s.type :=
  ⟨rfl,
    (segment_layer_update_many_preserves steps
      (segment_layer_create env store rect e lbl maps).1).2.1,
    fun _ _ _ => rfl⟩

/-- C10: the frame condition of update and the accessor.  An update leaves
the stored entry reference, the variant tag, the label view and the
segment's current frame origin unchanged, whatever that origin is at call
time; consequently `segment_layer_get_entry` returns the reference passed to
`segment_layer_create` after any number of updates. -/
theorem update_frame_condition_c10 (env2 : WidgetEnv) (store2 : EntryStore)
    (s : Segment) (env : WidgetEnv) (store : EntryStore) (rect : GRect)
    (e : ConversationEntryRef) (lbl maps : Bool)
    (steps : List (WidgetEnv × EntryStore)) :
    (segment_layer_update env2 store2 s).entry = s.entry ∧
    (segment_layer_update env2 store2 s).type = s.type ∧
    (segment_layer_update env2 store2 s).assistant_label_layer =
      s.assistant_label_layer ∧
    (segment_layer_update env2 store2 s).frame.origin = s.frame.origin ∧
    segment_layer_get_entry
        (segment_layer_update_many steps
          (segment_layer_create env store rect e lbl maps).1) = e :=
  ⟨rfl, rfl, rfl, rfl,
    (segment_layer_update_many_preserves steps
      (segment_layer_create env store rect e lbl maps).1).1⟩
